import Mathlib

/-!
Shallow embedding of the phishing-detection service.

The repository serves a pre-trained 2-class text classifier behind HTTP.
The served core lives in `ML/main.py` (request normalization, inference
post-processing, verdict formatting, request handler, health check) and a
secondary minimal service lives in `ai/ml-inference/main.py`.

The external model+tokenizer pair is a black box ("given a string, return a
probability distribution over two classes" per the design document), so the
embedding takes the softmax output as an oracle parameter; everything the
repository itself computes (text assembly, argmax/confidence/risk extraction,
tier selection, message formatting, exception-to-status mapping) is embedded
faithfully. Python floats are modelled as rationals; Python string truthiness
(`if s:` is false for `None` and for `""`) is modelled explicitly.
-/

namespace ML

/-- `PhishingAnalysisRequest` (ML/main.py lines 37-40): `url : str` required,
`text` and `title` optional. -/
structure PhishingAnalysisRequest where
  url : String
  text : Option String := none
  title : Option String := none
deriving DecidableEq, Repr

/-- Python truthiness of an `Optional[str]` value: `None` and `""` are falsy. -/
def optTruthy : Option String → Bool
  | none => false
  | some s => s ≠ ""

/-- The URL part appended by `_prepare_text_for_analysis` (ML/main.py lines
139-141): `"URL: {url}"`, appended exactly when `request.url` is truthy
(non-empty). -/
def urlSegment (request : PhishingAnalysisRequest) : List String :=
  if request.url ≠ "" then ["URL: " ++ request.url] else []

/-- The Title part appended by `_prepare_text_for_analysis` (ML/main.py lines
143-145): `"Title: {title}"`, appended exactly when `request.title` is truthy
(present and non-empty). -/
def titleSegment (request : PhishingAnalysisRequest) : List String :=
  match request.title with
  | some t => if t ≠ "" then ["Title: " ++ t] else []
  | none => []

/-- The Content part appended by `_prepare_text_for_analysis` (ML/main.py lines
147-151): `"Content: {text_content}"` where `text_content` is
`request.text[:1000] if len(request.text) > 1000 else request.text`, appended
exactly when `request.text` is truthy (present and non-empty). -/
def contentSegment (request : PhishingAnalysisRequest) : List String :=
  match request.text with
  | some t =>
    if t ≠ "" then
      ["Content: " ++ (if t.length > 1000 then t.take 1000 else t)]
    else []
  | none => []

/-- `_prepare_text_for_analysis` (ML/main.py lines 135-157): build `text_parts`
by appending, in order, the URL, Title, and Content parts (each guarded by
Python truthiness of the corresponding field); if `text_parts` stayed empty,
append the bare `request.url`; join with a single space (`" ".join`). -/
def _prepare_text_for_analysis (request : PhishingAnalysisRequest) : String :=
  let text_parts : List String :=
    urlSegment request ++ titleSegment request ++ contentSegment request
  String.intercalate " " (if text_parts = [] then [request.url] else text_parts)

/-- `String.intercalate` over a non-empty list starts with the head. -/
theorem intercalate_go_append (s : String) (l : List String) :
    ∀ acc : String, ∃ t : String, String.intercalate.go acc s l = acc ++ t := by
  induction l with
  | nil =>
    intro acc
    exact ⟨"", by simp [String.intercalate.go]⟩
  | cons a as ih =>
    intro acc
    obtain ⟨t, ht⟩ := ih (acc ++ s ++ a)
    refine ⟨s ++ a ++ t, ?_⟩
    show String.intercalate.go (acc ++ s ++ a) s as = _
    rw [ht]
    simp [String.append_assoc]

theorem intercalate_cons_exists (s a : String) (l : List String) :
    ∃ t : String, String.intercalate s (a :: l) = a ++ t := by
  simpa [String.intercalate] using intercalate_go_append s l a

theorem append_ne_empty_of_left_ne_empty (a b : String) (h : a ≠ "") :
    a ++ b ≠ "" := by
  intro hab
  apply h
  have hd : a.data ++ b.data = ([] : List Char) := by
    have := congrArg String.data hab
    simpa [String.data_append] using this
  have ha : a.data = [] := (List.append_eq_nil.mp hd).1
  exact String.ext ha

/-- When `url` is non-empty the fallback branch of `_prepare_text_for_analysis`
is dead: the result is the space-join of the present segments. -/
theorem prepare_eq_segments (request : PhishingAnalysisRequest)
    (h : request.url ≠ "") :
    _prepare_text_for_analysis request
      = String.intercalate " "
          (urlSegment request ++ titleSegment request ++ contentSegment request) := by
  have hu : urlSegment request = ["URL: " ++ request.url] := if_pos h
  have hne : urlSegment request ++ titleSegment request ++ contentSegment request ≠ [] := by
    rw [hu]; simp
  simp only [_prepare_text_for_analysis]
  rw [if_neg hne]

/-- `Pydantic` validation of `PhishingAnalysisRequest` (ML/main.py lines
37-40): `url : str` is required but any string value, including `""`, is
accepted (no non-emptiness constraint is declared); `text` and `title`
default to `None`. A body missing `url` is rejected. -/
def validate_request (url : Option String) (text title : Option String) :
    Option PhishingAnalysisRequest :=
  match url with
  | some u => some { url := u, text := text, title := title }
  | none => none

/-- C2 counterexample: for the request with `url = "https://a.com"` and no
title or text, the normalizer returns `"URL: https://a.com"`, which differs
from the raw URL `"https://a.com"` claimed by the spec. -/
theorem c2_prepare_only_url_counterexample :
    _prepare_text_for_analysis ⟨"https://a.com", none, none⟩ = "URL: https://a.com"
    ∧ _prepare_text_for_analysis ⟨"https://a.com", none, none⟩ ≠ "https://a.com" := by
  exact ⟨rfl, by decide⟩

/-- C2 (amended): for every request whose `url` is a non-empty string and whose
`title` and `text` are both absent, the normalized text equals the label prefix
`"URL: "` followed by the raw URL (not the bare URL). -/
theorem c2_prepare_only_url (u : String) (h : u ≠ "") :
    _prepare_text_for_analysis ⟨u, none, none⟩ = "URL: " ++ u := by
  rw [prepare_eq_segments ⟨u, none, none⟩ h]
  show String.intercalate " " (urlSegment ⟨u, none, none⟩ ++ [] ++ []) = _
  rw [show urlSegment ⟨u, none, none⟩ = ["URL: " ++ u] from if_pos h]
  rfl

theorem c2_prepare_only_url_witness :
    "https://a.com" ≠ ""
    ∧ _prepare_text_for_analysis ⟨"https://a.com", none, none⟩
        = "URL: " ++ "https://a.com" :=
  ⟨by decide, c2_prepare_only_url "https://a.com" (by decide)⟩

/-- C3: for every request with non-empty `url`, the normalized text is the
space-join of the present segments in the fixed order [URL, Title, Content],
and when `text` is longer than 1000 characters the Content segment holds
exactly the first 1000 characters of `text`. -/
theorem c3_prepare_segment_order (request : PhishingAnalysisRequest)
    (h : request.url ≠ "") :
    _prepare_text_for_analysis request
      = String.intercalate " "
          (urlSegment request ++ titleSegment request ++ contentSegment request)
    ∧ ∀ t : String, request.text = some t → 1000 < t.length →
        contentSegment request = ["Content: " ++ t.take 1000] := by
  refine ⟨prepare_eq_segments request h, ?_⟩
  intro t ht hlen
  have hne : t ≠ "" := by
    intro he
    rw [he] at hlen
    simp at hlen
  simp only [contentSegment, ht]
  rw [if_pos hne, if_pos hlen]

theorem c3_prepare_segment_order_witness :
    (⟨"https://a.com", some (String.mk (List.replicate 1001 'x')), some "Home"⟩
        : PhishingAnalysisRequest).url ≠ ""
    ∧ (_prepare_text_for_analysis
          ⟨"https://a.com", some (String.mk (List.replicate 1001 'x')), some "Home"⟩
        = String.intercalate " "
            (urlSegment ⟨"https://a.com", some (String.mk (List.replicate 1001 'x')), some "Home"⟩
              ++ titleSegment ⟨"https://a.com", some (String.mk (List.replicate 1001 'x')), some "Home"⟩
              ++ contentSegment ⟨"https://a.com", some (String.mk (List.replicate 1001 'x')), some "Home"⟩)
        ∧ ∀ t : String,
            (⟨"https://a.com", some (String.mk (List.replicate 1001 'x')), some "Home"⟩
              : PhishingAnalysisRequest).text = some t → 1000 < t.length →
            contentSegment ⟨"https://a.com", some (String.mk (List.replicate 1001 'x')), some "Home"⟩
              = ["Content: " ++ t.take 1000]) :=
  ⟨by decide,
   c3_prepare_segment_order
     ⟨"https://a.com", some (String.mk (List.replicate 1001 'x')), some "Home"⟩
     (by decide)⟩

/-- C7: for every request whose `url` is non-empty, the normalized input string
is non-empty (it starts with the URL segment). -/
theorem c7_prepare_nonempty (request : PhishingAnalysisRequest)
    (h : request.url ≠ "") :
    _prepare_text_for_analysis request ≠ "" := by
  rw [prepare_eq_segments request h]
  rw [show urlSegment request = ["URL: " ++ request.url] from if_pos h]
  rw [show ["URL: " ++ request.url] ++ titleSegment request ++ contentSegment request
        = ("URL: " ++ request.url) :: (titleSegment request ++ contentSegment request) from by simp]
  obtain ⟨tl, htl⟩ :=
    intercalate_cons_exists " " ("URL: " ++ request.url)
      (titleSegment request ++ contentSegment request)
  rw [htl]
  exact append_ne_empty_of_left_ne_empty _ _
    (append_ne_empty_of_left_ne_empty _ _ (by decide))

theorem c7_prepare_nonempty_witness :
    (⟨"https://a.com", none, some "Home"⟩ : PhishingAnalysisRequest).url ≠ ""
    ∧ _prepare_text_for_analysis ⟨"https://a.com", none, some "Home"⟩ ≠ "" :=
  ⟨by decide, c7_prepare_nonempty ⟨"https://a.com", none, some "Home"⟩ (by decide)⟩

/-- C9: a request with `url = ""` passes validation (only presence of `url` is
checked); with `title` and `text` also absent the normalizer returns the empty
string; and whenever `title` or `text` is truthy, the URL segment is silently
omitted from the normalized text. -/
theorem c9_empty_url_behavior (t ti : Option String)
    (request : PhishingAnalysisRequest)
    (hurl : request.url = "")
    (hpresent : (optTruthy request.title || optTruthy request.text) = true) :
    validate_request (some "") t ti = some ⟨"", t, ti⟩
    ∧ _prepare_text_for_analysis ⟨"", none, none⟩ = ""
    ∧ _prepare_text_for_analysis request
        = String.intercalate " " (titleSegment request ++ contentSegment request) := by
  refine ⟨rfl, rfl, ?_⟩
  have hu0 : urlSegment request = [] := by
    simp [urlSegment, hurl]
  have hts : titleSegment request ++ contentSegment request ≠ [] := by
    rcases (by simpa using hpresent :
        optTruthy request.title = true ∨ optTruthy request.text = true) with hti | htx
    · cases hti' : request.title with
      | none => rw [hti'] at hti; simp [optTruthy] at hti
      | some s =>
        rw [hti'] at hti
        have hs : s ≠ "" := by simpa [optTruthy] using hti
        simp [titleSegment, hti', hs]
    · cases htx' : request.text with
      | none => rw [htx'] at htx; simp [optTruthy] at htx
      | some s =>
        rw [htx'] at htx
        have hs : s ≠ "" := by simpa [optTruthy] using htx
        simp [contentSegment, htx', hs]
  simp only [_prepare_text_for_analysis]
  rw [hu0, List.nil_append, if_neg hts]

theorem c9_empty_url_behavior_witness :
    (⟨"", none, some "Home"⟩ : PhishingAnalysisRequest).url = ""
    ∧ (optTruthy (⟨"", none, some "Home"⟩ : PhishingAnalysisRequest).title
        || optTruthy (⟨"", none, some "Home"⟩ : PhishingAnalysisRequest).text) = true
    ∧ (validate_request (some "") none (some "Home") = some ⟨"", none, some "Home"⟩
        ∧ _prepare_text_for_analysis ⟨"", none, none⟩ = ""
        ∧ _prepare_text_for_analysis ⟨"", none, some "Home"⟩
            = String.intercalate " "
                (titleSegment ⟨"", none, some "Home"⟩
                  ++ contentSegment ⟨"", none, some "Home"⟩)) :=
  ⟨rfl, by decide,
   c9_empty_url_behavior none (some "Home") ⟨"", none, some "Home"⟩ rfl (by decide)⟩

/-- Python `f"{value:.1%}"`: render a number as a percentage with one decimal
place (multiply by 100, keep one rounded decimal digit, append `%`). The value
is scaled to tenths of a percent and rounded; negative values carry a sign. -/
def formatPercent (q : ℚ) : String :=
  let tenths : ℤ := round (q * 1000)
  let sign := if tenths < 0 then "-" else ""
  sign ++ toString (tenths.natAbs / 10) ++ "." ++ toString (tenths.natAbs % 10) ++ "%"

/-- `_generate_response_message` (ML/main.py lines 197-212): tier selection on
`is_phishing` and `confidence` via `> 0.8` / `elif > 0.6` / `else`, rendering
`{confidence:.1%}` in each f-string; the `url` parameter is accepted but
unused, as in the source. -/
def _generate_response_message (is_phishing : Bool) (confidence : ℚ)
    (url : String) : String :=
  if is_phishing then
    if confidence > 0.8 then
      "⚠️ HIGH RISK: This link appears to be a phishing attempt with "
        ++ formatPercent confidence ++ " confidence. Proceed with extreme caution."
    else if confidence > 0.6 then
      "⚠️ SUSPICIOUS: This link shows signs of phishing with "
        ++ formatPercent confidence ++ " confidence. Consider avoiding this link."
    else
      "⚠️ POTENTIAL RISK: This link has some suspicious characteristics with "
        ++ formatPercent confidence ++ " confidence."
  else
    if confidence > 0.8 then
      "✅ SAFE: This link appears legitimate with "
        ++ formatPercent confidence ++ " confidence."
    else if confidence > 0.6 then
      "✅ LIKELY SAFE: This link appears to be legitimate with "
        ++ formatPercent confidence ++ " confidence."
    else
      "⚠️ UNCERTAIN: Unable to determine with high confidence. Proceed with caution."

/-- The six message tiers of the verdict formatter. -/
inductive Tier where
  | highRisk
  | suspicious
  | potentialRisk
  | safe
  | likelySafe
  | uncertain
deriving DecidableEq, Repr

/-- The tier table as the specification states it: phishing with confidence
`> 0.8` is HIGH RISK, in `(0.6, 0.8]` SUSPICIOUS, `≤ 0.6` POTENTIAL RISK;
non-phishing with confidence `> 0.8` is SAFE, in `(0.6, 0.8]` LIKELY SAFE,
`≤ 0.6` UNCERTAIN. -/
def claimTier (is_phishing : Bool) (confidence : ℚ) : Tier :=
  if is_phishing then
    if confidence > 0.8 then Tier.highRisk
    else if 0.6 < confidence ∧ confidence ≤ 0.8 then Tier.suspicious
    else Tier.potentialRisk
  else
    if confidence > 0.8 then Tier.safe
    else if 0.6 < confidence ∧ confidence ≤ 0.8 then Tier.likelySafe
    else Tier.uncertain

/-- The exact message text of each tier (same strings as
`_generate_response_message`). -/
def tierMessage (t : Tier) (confidence : ℚ) : String :=
  match t with
  | Tier.highRisk =>
      "⚠️ HIGH RISK: This link appears to be a phishing attempt with "
        ++ formatPercent confidence ++ " confidence. Proceed with extreme caution."
  | Tier.suspicious =>
      "⚠️ SUSPICIOUS: This link shows signs of phishing with "
        ++ formatPercent confidence ++ " confidence. Consider avoiding this link."
  | Tier.potentialRisk =>
      "⚠️ POTENTIAL RISK: This link has some suspicious characteristics with "
        ++ formatPercent confidence ++ " confidence."
  | Tier.safe =>
      "✅ SAFE: This link appears legitimate with "
        ++ formatPercent confidence ++ " confidence."
  | Tier.likelySafe =>
      "✅ LIKELY SAFE: This link appears to be legitimate with "
        ++ formatPercent confidence ++ " confidence."
  | Tier.uncertain =>
      "⚠️ UNCERTAIN: Unable to determine with high confidence. Proceed with caution."

/-- C4: the verdict formatter realizes exactly the claimed tier table, and
confidence exactly 0.8 selects SUSPICIOUS (phishing) / LIKELY SAFE
(non-phishing), not HIGH RISK / SAFE. -/
theorem c4_message_tier_table (is_phishing : Bool) (confidence : ℚ)
    (url : String) :
    _generate_response_message is_phishing confidence url
      = tierMessage (claimTier is_phishing confidence) confidence
    ∧ claimTier true 0.8 = Tier.suspicious
    ∧ claimTier false 0.8 = Tier.likelySafe := by
  refine ⟨?_, by norm_num [claimTier], by norm_num [claimTier]⟩
  rcases le_or_lt confidence (0.6 : ℚ) with h6 | h6
  · have h8 : ¬ confidence > (0.8 : ℚ) := not_lt.mpr (le_trans h6 (by norm_num))
    have h6' : ¬ confidence > (0.6 : ℚ) := not_lt.mpr h6
    have hc : ¬ (0.6 < confidence ∧ confidence ≤ 0.8) := fun hx => h6' hx.1
    cases is_phishing <;>
      simp [_generate_response_message, claimTier, h8, h6', hc, tierMessage]
  · rcases le_or_lt confidence (0.8 : ℚ) with h8 | h8
    · have h8' : ¬ confidence > (0.8 : ℚ) := not_lt.mpr h8
      have hc : 0.6 < confidence ∧ confidence ≤ 0.8 := ⟨h6, h8⟩
      cases is_phishing <;>
        simp [_generate_response_message, claimTier, h8', h6, hc, tierMessage]
    · cases is_phishing <;>
        simp [_generate_response_message, claimTier, h8, tierMessage]

/-- `needle` occurs at the start of `haystack` (executable). -/
def startsWithList (needle haystack : List Char) : Bool :=
  match needle, haystack with
  | [], _ => true
  | _ :: _, [] => false
  | a :: n, b :: h => a == b && startsWithList n h

/-- `needle` occurs contiguously somewhere in `haystack` (executable). -/
def containsList (needle : List Char) : List Char → Bool
  | [] => startsWithList needle []
  | b :: h => startsWithList needle (b :: h) || containsList needle h

/-- `needle` is a contiguous substring of `haystack` (executable). -/
def strContains (haystack needle : String) : Bool :=
  containsList needle.data haystack.data

theorem startsWithList_self_append (n t : List Char) :
    startsWithList n (n ++ t) = true := by
  induction n with
  | nil => rfl
  | cons a n ih => simp [startsWithList, ih]

theorem containsList_append_right (n x t : List Char)
    (h : containsList n t = true) : containsList n (x ++ t) = true := by
  induction x with
  | nil => simpa using h
  | cons b x ih => simp [containsList, ih]

theorem containsList_self_append (n t : List Char) :
    containsList n (n ++ t) = true := by
  cases n with
  | nil =>
    cases t with
    | nil => rfl
    | cons b h => simp [containsList, startsWithList]
  | cons a n' =>
    have hs := startsWithList_self_append (a :: n') t
    simp only [List.cons_append] at hs
    simp [containsList, hs]

theorem strContains_append_mid (a s b : String) :
    strContains (a ++ s ++ b) s = true := by
  simp only [strContains, String.data_append]
  rw [List.append_assoc]
  exact containsList_append_right _ _ _ (containsList_self_append _ _)

/-- C6 counterexample: for a non-phishing verdict with confidence 1/2, the
UNCERTAIN message contains no rendering of the confidence percentage
(`"50.0%"` does not occur in it), refuting "every tier's message text contains
the formatted confidence percentage". -/
theorem c6_uncertain_omits_percentage :
    _generate_response_message false (1/2) "https://a.com"
      = "⚠️ UNCERTAIN: Unable to determine with high confidence. Proceed with caution."
    ∧ formatPercent (1/2) = "50.0%"
    ∧ strContains (_generate_response_message false (1/2) "https://a.com")
        (formatPercent (1/2)) = false := by
  have hmsg : _generate_response_message false (1/2) "https://a.com"
      = "⚠️ UNCERTAIN: Unable to determine with high confidence. Proceed with caution." := by
    norm_num [_generate_response_message]
  have hfmt : formatPercent (1/2) = "50.0%" := by
    have h500 : round ((1/2 : ℚ) * 1000) = 500 := by norm_num [round_eq]
    simp only [formatPercent, h500]
    decide
  refine ⟨hmsg, hfmt, ?_⟩
  rw [hmsg, hfmt]
  decide

/-- C6 (amended): every tier's message text contains the formatted confidence
percentage, except the UNCERTAIN tier (non-phishing, confidence ≤ 0.6), whose
message omits it. -/
theorem c6_message_shows_percentage (is_phishing : Bool) (confidence : ℚ)
    (url : String)
    (h : ¬ (is_phishing = false ∧ confidence ≤ 0.6)) :
    strContains (_generate_response_message is_phishing confidence url)
      (formatPercent confidence) = true := by
  cases is_phishing with
  | true =>
    by_cases h8 : confidence > (0.8 : ℚ)
    · simp only [_generate_response_message, if_pos rfl, if_pos h8]
      exact strContains_append_mid _ _ _
    · by_cases h6 : confidence > (0.6 : ℚ)
      · simp only [_generate_response_message, if_pos rfl, if_neg h8, if_pos h6]
        exact strContains_append_mid _ _ _
      · simp only [_generate_response_message, if_pos rfl, if_neg h8, if_neg h6]
        exact strContains_append_mid _ _ _
  | false =>
    have h6 : confidence > (0.6 : ℚ) := by
      by_contra h6
      exact h ⟨rfl, not_lt.mp h6⟩
    by_cases h8 : confidence > (0.8 : ℚ)
    · simp only [_generate_response_message, Bool.false_eq_true, if_false, if_pos h8]
      exact strContains_append_mid _ _ _
    · simp only [_generate_response_message, Bool.false_eq_true, if_false,
        if_neg h8, if_pos h6]
      exact strContains_append_mid _ _ _

theorem c6_message_shows_percentage_witness :
    ¬ ((true : Bool) = false ∧ (1/2 : ℚ) ≤ 0.6)
    ∧ strContains (_generate_response_message true (1/2) "https://a.com")
        (formatPercent (1/2)) = true :=
  ⟨by simp, c6_message_shows_percentage true (1/2) "https://a.com" (by simp)⟩

/-- The post-processing of `_run_inference` (ML/main.py lines 180-191).
Tokenization, the forward pass, and softmax belong to the external
model+tokenizer capability ("given a string, return a probability distribution
over two classes"), so the embedding starts from the 2-class softmax output
`(p0, p1) = probabilities[0]`: `prediction = argmax(probabilities)` (ties give
index 0, as `torch.argmax` returns the first maximal index),
`confidence = probabilities[0][prediction]`,
`risk_score = probabilities[0][1]`, `is_phishing = (prediction == 1)`. -/
def _run_inference (p0 p1 : ℚ) : Bool × ℚ × ℚ :=
  let prediction : ℕ := if p1 > p0 then 1 else 0
  let confidence : ℚ := if prediction = 1 then p1 else p0
  let risk_score : ℚ := p1
  (prediction == 1, confidence, risk_score)

/-- C5: on every 2-class distribution (`p0 + p1 = 1`), `risk_score` is the
class-1 probability regardless of the predicted label, `confidence` equals
`risk_score` when `is_phishing` is true, and `1 - risk_score` when false. -/
theorem c5_confidence_vs_risk (p0 p1 : ℚ) (h : p0 + p1 = 1) :
    (_run_inference p0 p1).2.2 = p1
    ∧ ((_run_inference p0 p1).1 = true →
        (_run_inference p0 p1).2.1 = (_run_inference p0 p1).2.2)
    ∧ ((_run_inference p0 p1).1 = false →
        (_run_inference p0 p1).2.1 = 1 - (_run_inference p0 p1).2.2) := by
  by_cases hgt : p1 > p0
  · simp [_run_inference, hgt]
  · simp [_run_inference, hgt]
    linarith

theorem c5_confidence_vs_risk_witness :
    (1/4 : ℚ) + 3/4 = 1
    ∧ ((_run_inference (1/4) (3/4)).2.2 = 3/4
        ∧ ((_run_inference (1/4) (3/4)).1 = true →
            (_run_inference (1/4) (3/4)).2.1 = (_run_inference (1/4) (3/4)).2.2)
        ∧ ((_run_inference (1/4) (3/4)).1 = false →
            (_run_inference (1/4) (3/4)).2.1
              = 1 - (_run_inference (1/4) (3/4)).2.2)) :=
  ⟨by norm_num, c5_confidence_vs_risk (1/4) (3/4) (by norm_num)⟩

/-- One HTTP error response: FastAPI turns an uncaught `HTTPException` into a
response with this status code and detail. -/
structure HTTPError where
  status_code : ℕ
  detail : String
deriving DecidableEq, Repr

/-- A Python exception raised inside the handler's `try` block: either an
`HTTPException` (which in FastAPI subclasses `Exception`) or any other
exception carrying a message. -/
inductive PyExc where
  | http (status_code : ℕ) (detail : String)
  | other (msg : String)
deriving DecidableEq, Repr

/-- Python `str(e)`: Starlette's `HTTPException.__str__` renders
`"{status_code}: {detail}"`; other exceptions render their message. -/
def excMessage : PyExc → String
  | PyExc.http c d => toString c ++ ": " ++ d
  | PyExc.other m => m

/-- The `details` dict assembled by `analyze_phishing` (lines 114-118). -/
structure AnalysisDetails where
  model_used : String
  analysis_text : String
  device : String
deriving DecidableEq, Repr

/-- `PhishingAnalysisResponse` (ML/main.py lines 42-47). -/
structure PhishingAnalysisResponse where
  is_phishing : Bool
  confidence : ℚ
  risk_score : ℚ
  message : String
  details : AnalysisDetails
deriving DecidableEq, Repr

/-- The module-level globals `model`, `tokenizer`, `device` (lines 31-34),
all initialized to `None`. The loaded model and tokenizer objects are external
black boxes, so only their presence is tracked. -/
structure ServerState where
  model : Option Unit
  tokenizer : Option Unit
  device : Option String
deriving DecidableEq, Repr

/-- The state before the startup hook has run: all three globals are `None`. -/
def initialState : ServerState := ⟨none, none, none⟩

/-- The state after a successful `load_model` startup (lines 49-76): device
selected, tokenizer and model loaded. -/
def load_model (dev : String) : ServerState := ⟨some (), some (), some dev⟩

/-- Python `str(device)` as used in the `details` dict: `"None"` when the
global is unset. -/
def deviceStr : Option String → String
  | some d => d
  | none => "None"

/-- `health_check` response shape (lines 83-91). -/
structure HealthResponse where
  status : String
  service : String
  model_loaded : Bool
  device : String
deriving DecidableEq, Repr

/-- `health_check` (ML/main.py lines 83-91): status `"healthy"`,
`model_loaded = (model is not None)`, `device = str(device) if device else
"unknown"`. -/
def health_check (st : ServerState) : HealthResponse :=
  { status := "healthy"
    service := "ml-phishing-detector"
    model_loaded := st.model.isSome
    device := match st.device with | some d => d | none => "unknown" }

/-- The body of `analyze_phishing`'s `try` block (ML/main.py lines 98-129):
raise `HTTPException(503, "Model not loaded")` when `model is None or
tokenizer is None`; otherwise normalize the request, obtain the 2-class
distribution from the external model (`modelOut`, whose failure models a
tokenizer/forward-pass exception that `_run_inference` re-raises), post-process
it with `_run_inference`, format the message, and assemble the response. -/
def analyze_body (st : ServerState)
    (modelOut : String → Except String (ℚ × ℚ))
    (request : PhishingAnalysisRequest) :
    Except PyExc PhishingAnalysisResponse :=
  if st.model.isNone || st.tokenizer.isNone then
    Except.error (PyExc.http 503 "Model not loaded")
  else
    let analysis_text := _prepare_text_for_analysis request
    match modelOut analysis_text with
    | Except.error e => Except.error (PyExc.other e)
    | Except.ok (p0, p1) =>
      let r := _run_inference p0 p1
      Except.ok
        { is_phishing := r.1
          confidence := r.2.1
          risk_score := r.2.2
          message := _generate_response_message r.1 r.2.1 request.url
          details :=
            { model_used := "ealvaradob/bert-finetuned-phishing"
              analysis_text := analysis_text
              device := deviceStr st.device } }

/-- `analyze_phishing` (ML/main.py lines 93-133): the `except Exception`
clause catches every exception raised in the `try` block — including the
`HTTPException(503)` itself, since FastAPI's `HTTPException` subclasses
`Exception` — and re-raises `HTTPException(500, f"Analysis failed: {str(e)}")`. -/
def analyze_phishing (st : ServerState)
    (modelOut : String → Except String (ℚ × ℚ))
    (request : PhishingAnalysisRequest) :
    Except HTTPError PhishingAnalysisResponse :=
  match analyze_body st modelOut request with
  | Except.ok r => Except.ok r
  | Except.error e => Except.error ⟨500, "Analysis failed: " ++ excMessage e⟩

/-- C1 is a code bug: with the model not loaded, the handler does NOT surface
the 503; the catch-all `except Exception` swallows the `HTTPException(503)` and
converts it into a generic 500 `"Analysis failed: 503: Model not loaded"`
response, both at a concrete request and for every request/state with
`model = None`. -/
theorem c1_unloaded_request_gets_500 :
    analyze_phishing initialState (fun _ => Except.error "model is None")
        ⟨"https://a.com", none, none⟩
      = Except.error ⟨500, "Analysis failed: 503: Model not loaded"⟩
    ∧ ∀ (st : ServerState) (modelOut : String → Except String (ℚ × ℚ))
        (request : PhishingAnalysisRequest), st.model = none →
        analyze_phishing st modelOut request
          = Except.error ⟨500, "Analysis failed: 503: Model not loaded"⟩ := by
  refine ⟨rfl, ?_⟩
  intro st modelOut request hm
  simp [analyze_phishing, analyze_body, hm]
  rfl

/-- C8: the health check always reports status `"healthy"`, reports
`model_loaded` exactly when the global model is set (false in the initial
state, true after a successful load), and reports the device string. -/
theorem c8_health_check (st : ServerState) (dev : String) :
    (health_check st).status = "healthy"
    ∧ (health_check st).model_loaded = st.model.isSome
    ∧ (health_check initialState).model_loaded = false
    ∧ (health_check (load_model dev)).model_loaded = true
    ∧ (health_check st).device
        = (match st.device with | some d => d | none => "unknown") :=
  ⟨rfl, rfl, rfl, rfl, rfl⟩

end ML

namespace MLInference

/-! Embedding of the secondary service `ai/ml-inference/main.py`. -/

/-- `PredictRequest` (ai/ml-inference/main.py lines 8-9). -/
structure PredictRequest where
  text : String
deriving DecidableEq, Repr

/-- `PredictResponse` (ai/ml-inference/main.py lines 11-13). -/
structure PredictResponse where
  phishing_probability : ℚ
  prediction : String
deriving DecidableEq, Repr

/-- A scalar element of a probability tensor, as `probabilities[1]`. -/
structure TensorScalar where
  val : ℚ
deriving DecidableEq, Repr

/-- A Python value as far as `float(...)` is concerned: a number, or a bound
method object (the result of referencing an attribute like `.item` without
calling it). -/
inductive PyObj where
  | num (q : ℚ)
  | method (m : String)
deriving DecidableEq, Repr

/-- Python attribute access `t.item` WITHOUT parentheses: it does not invoke
the method, it evaluates to the bound method object itself. -/
def itemAttr (_t : TensorScalar) : PyObj := PyObj.method "item"

/-- Python `float(x)`: succeeds on a number; raises
`TypeError: float() argument must be a string or a real number, ...` on a
bound method object. -/
def pyFloat : PyObj → Except String ℚ
  | PyObj.num q => Except.ok q
  | PyObj.method _ =>
      Except.error
        "float() argument must be a string or a real number, not 'builtin_function_or_method'"

/-- `predict` (ai/ml-inference/main.py lines 31-49): tokenization, forward
pass and softmax are the external capability (`softmaxOut`, giving
`probabilities = softmax(logits, dim=1)[0]`); the handler then evaluates
`float(probabilities[1].item)` — note: `.item`, not `.item()` — and on the
resulting `TypeError` the `except` clause raises `HTTPException(500, str(e))`. -/
def predict (softmaxOut : String → ℚ × ℚ)
    (request : PredictRequest) : Except ML.HTTPError PredictResponse :=
  let probabilities := softmaxOut request.text
  match pyFloat (itemAttr ⟨probabilities.2⟩) with
  | Except.ok phishing_prob =>
      Except.ok
        { phishing_probability := phishing_prob
          prediction := if phishing_prob > 1/2 then "phishing" else "not phishing" }
  | Except.error e => Except.error ⟨500, e⟩

/-- C10: for every model output and every request, the `/predict` handler of
the alternate service fails while building its response (the `float` call is
applied to the bound method `probabilities[1].item`, not to its call result)
and returns a 500 error; it never returns a successful `PredictResponse`. -/
theorem c10_predict_always_500 (softmaxOut : String → ℚ × ℚ)
    (request : PredictRequest) :
    predict softmaxOut request
      = Except.error ⟨500,
          "float() argument must be a string or a real number, not 'builtin_function_or_method'"⟩ :=
  rfl

end MLInference
